import Mathlib

/-!
# A shallow embedding of the `postpone` lazy-media engine

This file models the single source file of the repository (`src/index.js`,
the `Postpone` constructor and its prototype methods) and settles the
specification claims against it.

Modelling conventions:
* A DOM element is a record of its tag name (stored lower-case; DOM tag
  matching is case-insensitive and the source always compares through
  `tagName.toLowerCase()`), its attribute list, and — where a method needs
  them — its child elements, its `outerHTML` serialization, or its offset
  geometry.
* `getAttribute` returns `none` for a missing attribute (JS `null`) and
  `some s` for a present one; JS string truthiness (`null` and `""` are
  falsy) is `jsTruthy`.
* JS runtime `TypeError`s (reading a property of `undefined`/`null`) are
  modelled as `Except.error ()`; the DOM mutations that happened before the
  throw are kept, mirroring that a JS exception does not roll anything back.
* `new Date().getTime()` is modelled by an arbitrary clock function
  `clock : Nat → Nat` sampled at successive instants `t, t+1, ...`;
  `setAttribute` coerces the numeric timestamp to its decimal string,
  modelled by `Nat.repr`.
-/

namespace Postpone

/-- JS `element.getAttribute(name)`: the value of the first binding of
`name` in the attribute list, or `none` (JS `null`) when absent. -/
def getAttribute (attrs : List (String × String)) (nm : String) : Option String :=
  (attrs.find? (fun p => p.1 = nm)).map (·.2)

/-- JS `element.setAttribute(name, v)`: overwrite the attribute in place if
present, otherwise append it. -/
def setAttribute (attrs : List (String × String)) (nm v : String) : List (String × String) :=
  if (attrs.find? (fun p => p.1 = nm)).isSome then
    attrs.map (fun p => if p.1 = nm then (nm, v) else p)
  else
    attrs ++ [(nm, v)]

/-- JS `element.removeAttribute(name)`. -/
def removeAttribute (attrs : List (String × String)) (nm : String) : List (String × String) :=
  attrs.filter (fun p => !(p.1 = nm))

/-- Truthiness of a JS string-or-null value: `null` and `""` are falsy. -/
def jsTruthy : Option String → Bool
  | none => false
  | some s => !(s = "")

/-- Does `needle` occur at the head of `hay`? (helper for `jsContains`). -/
def leadMatch : List Char → List Char → Bool
  | _, [] => true
  | [], _ :: _ => false
  | a :: as, b :: bs => a = b && leadMatch as bs

/-- Does `needle` occur somewhere in `hay`? (helper for `jsContains`). -/
def subHit (needle : List Char) : List Char → Bool
  | [] => leadMatch [] needle
  | c :: rest => leadMatch (c :: rest) needle || subHit needle rest

/-- The JS idiom `~hay.indexOf(needle)` used by `load` for its tag-kind
dispatch: truthy exactly when `needle` is a substring of `hay`. -/
def jsContains (hay needle : String) : Bool := subHit needle.data hay.data

/-- `tagName.toLowerCase()`. (`String.toLower` itself does not reduce in the
kernel, so we map `Char.toLower` over the character list.) -/
def jsLower (s : String) : String := ⟨s.data.map Char.toLower⟩

/-- The DOM element as seen by discovery, grouping and the change poller:
tag name, attributes, and the `outerHTML` serialization the host browser
would produce for it. -/
structure Elem where
  tag : String
  attrs : List (String × String)
  outerHTML : String
deriving DecidableEq, Repr

/-- The host document for discovery/grouping: its element list in document
order, and the `document.querySelector` table resolving a selector string to
the index of a scroll-container node (`none` = no node matches). -/
structure Doc where
  nodes : List Elem
  sel : List (String × Nat)
deriving DecidableEq, Repr

/-- JS `document.querySelector(s)` over the container table: index of the
first matching container node, or `none` (JS `null`). -/
def querySelector (doc : Doc) (s : String) : Option Nat :=
  (doc.sel.find? (fun p => p.1 = s)).map (·.2)

/-- `this.tags`, the selector list `"audio, embed, iframe, img, image,
picture, use, video, tref"` from `init`, already split at the commas the
way `querySelectorAll` parses it. -/
def tags : List String :=
  ["audio", "embed", "iframe", "img", "image", "picture", "use", "video", "tref"]

/-- `document.querySelectorAll(this.tags)`: the document-order nodes whose
tag appears in the selector list. -/
def querySelectorAllTags (doc : Doc) : List Elem :=
  doc.nodes.filter (fun e => tags.contains e.tag)

/-- `Postpone.prototype.getElements`: keep the matches whose `postpone`
attribute is a string (i.e. present) and not the literal `"false"`. -/
def getElements (doc : Doc) : List Elem :=
  (querySelectorAllTags doc).filter (fun e =>
    match getAttribute e.attrs "postpone" with
    | some p => !(p = "false")
    | none => false)

end Postpone

namespace Postpone

/-- Modelled from the spec (section 4.2 Element Discovery), for comparison
with `getElements`: all document-order nodes of an allow-listed tag whose
marker attribute is present and not the literal string `"false"`. -/
def discoverySpec (doc : Doc) : List Elem :=
  doc.nodes.filter (fun e =>
    tags.contains e.tag &&
    match getAttribute e.attrs "postpone" with
    | some p => !(p = "false")
    | none => false)

end Postpone

open Postpone

/-- C7: `getElements` returns exactly the allow-listed elements whose
`postpone` marker is present and not `"false"`, in document order; in
particular no element whose marker is exactly `"false"` is ever returned. -/
theorem c7_discovery_exact (doc : Doc) :
    getElements doc = discoverySpec doc ∧
    ∀ e ∈ getElements doc, getAttribute e.attrs "postpone" ≠ some "false" := by
  constructor
  · unfold getElements querySelectorAllTags discoverySpec
    rw [List.filter_filter]
    apply List.filter_congr
    intro e _
    cases h : getAttribute e.attrs "postpone" <;> simp [Bool.and_comm]
  · intro e he hfalse
    unfold getElements at he
    have := (List.mem_filter.mp he).2
    rw [hfalse] at this
    simp at this

/-- Concrete document for the C7 witness: one opted-out image, one live
image, one unmarked video, one marked element of a non-listed tag. -/
def docW : Doc :=
  { nodes :=
      [ { tag := "img", attrs := [("postpone", "false"), ("data-src", "x.jpg")], outerHTML := "<img 1>" }
      , { tag := "img", attrs := [("postpone", "true"), ("data-src", "y.jpg")], outerHTML := "<img 2>" }
      , { tag := "video", attrs := [("data-src", "z.mp4")], outerHTML := "<video>" }
      , { tag := "div", attrs := [("postpone", "true")], outerHTML := "<div>" } ]
  , sel := [] }

/-- Witness for C7 at `docW`: the theorem applied at a concrete document and
a concrete discovered element. -/
theorem c7_discovery_exact_witness :
    getElements docW = discoverySpec docW ∧
    getAttribute (Elem.mk "img" [("postpone", "true"), ("data-src", "y.jpg")] "<img 2>").attrs
      "postpone" ≠ some "false" :=
  ⟨(c7_discovery_exact docW).1,
   (c7_discovery_exact docW).2
     (Elem.mk "img" [("postpone", "true"), ("data-src", "y.jpg")] "<img 2>") (by decide)⟩

namespace Postpone

/-- A DOM node as seen by the geometry code: tag name, own `offsetTop`
contribution, own `scrollTop`, and the `offsetParent` chain (`none` = JS
`null`). -/
inductive ONode where
  | mk (tagName : String) (offsetTopVal : Int) (scrollTopVal : Int) (offsetParent : Option ONode)
deriving Repr

/-- The node's `tagName`. -/
def ONode.tagName : ONode → String
  | .mk t _ _ _ => t

/-- The node's own `offsetTop` property. -/
def ONode.offsetTopVal : ONode → Int
  | .mk _ o _ _ => o

/-- The node's `scrollTop` property. -/
def ONode.scrollTopVal : ONode → Int
  | .mk _ _ s _ => s

/-- The node's `offsetParent`. -/
def ONode.offsetParent : ONode → Option ONode
  | .mk _ _ _ p => p

/-- `Postpone.prototype.offsetTop`: walk the `offsetParent` chain, summing
`offsetTop`, stopping at a `null` parent or at (and excluding) `body`. -/
def offsetTop : ONode → Int
  | .mk t o _ parent =>
    if jsLower t = "body" then 0
    else o + (match parent with
      | none => 0
      | some p => offsetTop p)

/-- `Postpone.prototype.isVisible`: a falsy/`"window"` scroll element is
replaced by `document.body`; then compare
`viewPortHeight + (scrollTop + offsetTop scrollElement)` against
`offsetTop el`. `viewPortHeight` is `document.documentElement.clientHeight`
and `body` is `document.body`, both supplied by the host document. -/
def isVisible (viewPortHeight : Int) (body : ONode) (el : ONode)
    (scrollElement : Option ONode) : Bool :=
  let se := match scrollElement with
    | none => body
    | some s => s
  let top := offsetTop el
  let scrollHeight := se.scrollTopVal + offsetTop se
  viewPortHeight + scrollHeight ≥ top

/-- Modelled from the spec (section 4.1 Geometry Evaluator), for comparison
with `offsetTop`: the positioned-ancestor chain of an element, up to and
excluding `body` (or a missing parent). -/
def ancestorChain : ONode → List ONode
  | n@(.mk t _ _ parent) =>
    if jsLower t = "body" then []
    else n :: (match parent with
      | none => []
      | some p => ancestorChain p)

/-- Modelled from the spec: the element's top offset is the sum of the
`offsetTop` contributions over its positioned-ancestor chain. -/
def elementTopOffsetSpec (el : ONode) : Int :=
  ((ancestorChain el).map ONode.offsetTopVal).sum

/-- `offsetTop` computes exactly the spec's ancestor-chain sum. -/
theorem offsetTop_eq_chain_sum : ∀ el : ONode, offsetTop el = elementTopOffsetSpec el
  | .mk t o s parent => by
    unfold offsetTop elementTopOffsetSpec ancestorChain
    by_cases h : jsLower t = "body"
    · simp [h]
    · cases parent with
      | none => simp [h, ONode.offsetTopVal]
      | some p =>
        have ih := offsetTop_eq_chain_sum p
        simp only [h, if_false]
        simp [ONode.offsetTopVal, ih, elementTopOffsetSpec]

end Postpone

/-- C8: the Geometry Evaluator reports an element visible exactly when
`viewportHeight + (scrollTop + containerOffset) >= elementTopOffset`, where
the element's top offset sums its offsets over the positioned-ancestor chain
up to (excluding) `body`; there is no lower bound, so nothing below the
comparison restricts already-scrolled-past elements. -/
theorem c8_visibility_inequality (viewPortHeight : Int) (body el : ONode)
    (scrollElement : Option ONode) :
    isVisible viewPortHeight body el scrollElement = true ↔
      viewPortHeight + ((scrollElement.getD body).scrollTopVal
          + offsetTop (scrollElement.getD body)) ≥ elementTopOffsetSpec el := by
  unfold isVisible
  cases scrollElement <;>
    simp [Option.getD, offsetTop_eq_chain_sum, ge_iff_le]

/-- Nodes for the C8 witness: a body, a scrolled container, and an element
whose top offset (30) is far above the already-scrolled region — it is still
reported visible (no lower-bound check). -/
def bodyW : ONode := .mk "body" 0 0 none

/-- C8 witness container: scrolled down by 500. -/
def seW : ONode := .mk "div" 10 500 (some bodyW)

/-- C8 witness element: cumulative top offset 30 = 20 + 10. -/
def elW : ONode := .mk "img" 20 0 (some (.mk "div" 10 0 (some bodyW)))

/-- Witness for C8: the equivalence applied at concrete geometry, plus the
concrete evaluation showing an element far above the viewport (top 30,
scrolled past by 500) is still reported visible. -/
theorem c8_visibility_inequality_witness :
    (isVisible 100 bodyW elW (some seW) = true ↔
      100 + (seW.scrollTopVal + offsetTop seW) ≥ elementTopOffsetSpec elW) ∧
    isVisible 100 bodyW elW (some seW) = true :=
  ⟨c8_visibility_inequality 100 bodyW elW (some seW), by decide⟩

namespace Postpone

/-- A child node of a media element (`el.children[i]`): tag and attributes. -/
structure LChild where
  tag : String
  attrs : List (String × String)
deriving DecidableEq, Repr

/-- A DOM element as seen by `load`: tag, attributes, element children. -/
structure LElem where
  tag : String
  attrs : List (String × String)
  children : List LChild
deriving DecidableEq, Repr

/-- The body of the `audio`/`video` child loop in `load`: if the child is a
`source` with a truthy `data-src`, copy it to `src`. -/
def avChildStep (c : LChild) : LChild :=
  if jsLower c.tag = "source" && jsTruthy (getAttribute c.attrs "data-src") then
    { c with attrs := setAttribute c.attrs "src" ((getAttribute c.attrs "data-src").getD "") }
  else c

/-- The `for ( i = 0; i <= el.children.length; i++ )` loop of the
`audio`/`video` branch of `load`. Note the `<=` bound taken verbatim from
the source: while `i < children.length` the child exists and is processed
in place; at `i = children.length` the loop guard still holds but
`el.children[i]` is JS `undefined`, so `child.tagName` throws a `TypeError`
— the `true` in the result records the throw; the in-place child mutations
made so far stay. -/
def avLoop (cs : List LChild) (i : Nat) : List LChild × Bool :=
  if h : i < cs.length then
    avLoop (cs.set i (avChildStep (cs.get ⟨i, h⟩))) (i + 1)
  else if i ≤ cs.length then
    (cs, true)
  else (cs, false)
termination_by cs.length + 1 - i
decreasing_by
  simp only [List.length_set]
  omega

/-- The body of the `picture` child loop in `load`: for a `source` child,
copy a truthy `data-src` to `src` and a truthy `data-srcset` to `srcset`. -/
def picChildStep (c : LChild) : LChild :=
  if jsLower c.tag = "source" then
    let c1 := if jsTruthy (getAttribute c.attrs "data-src") then
        { c with attrs := setAttribute c.attrs "src" ((getAttribute c.attrs "data-src").getD "") }
      else c
    if jsTruthy (getAttribute c1.attrs "data-srcset") then
      { c1 with attrs := setAttribute c1.attrs "srcset" ((getAttribute c1.attrs "data-srcset").getD "") }
    else c1
  else c

/-- The `for ( i = 0; i <= el.children.length; i++ )` loop of the `picture`
branch of `load`; same verbatim `<=` bound and resulting throw as `avLoop`. -/
def picLoop (cs : List LChild) (i : Nat) : List LChild × Bool :=
  if h : i < cs.length then
    picLoop (cs.set i (picChildStep (cs.get ⟨i, h⟩))) (i + 1)
  else if i ≤ cs.length then
    (cs, true)
  else (cs, false)
termination_by cs.length + 1 - i
decreasing_by
  simp only [List.length_set]
  omega

/-- `Postpone.prototype.load`. Mirrors the source statement by statement:
remove the `postpone` marker first; copy a truthy `data-src` to `src` for
the `"audio, embed, iframe, img, picture, video"` kinds; then one
`if`/`else if`/`else if` chain: `data-xlink:href` for `"image, tref, use"`,
the child loop for `audio`/`video` with children, the child loop for
`picture` with children. The second component records whether the call threw
a `TypeError` (it returns the element only when `false`). -/
def load (el0 : LElem) : LElem × Bool :=
  let el1 := { el0 with attrs := removeAttribute el0.attrs "postpone" }
  let el2 :=
    if jsContains "audio, embed, iframe, img, picture, video" (jsLower el1.tag)
        && jsTruthy (getAttribute el1.attrs "data-src") then
      { el1 with attrs := setAttribute el1.attrs "src" ((getAttribute el1.attrs "data-src").getD "") }
    else el1
  if jsContains "image, tref, use" (jsLower el2.tag)
      && jsTruthy (getAttribute el2.attrs "data-xlink:href") then
    let a := setAttribute el2.attrs "xlink:href" ((getAttribute el2.attrs "data-xlink:href").getD "")
    ({ el2 with attrs := a }, false)
  else if jsContains "audio, video" (jsLower el2.tag) && !(el2.children.length = 0) then
    let r := avLoop el2.children 0
    ({ el2 with children := r.1 }, r.2)
  else if jsLower el2.tag = "picture" && !(el2.children.length = 0) then
    let r := picLoop el2.children 0
    ({ el2 with children := r.1 }, r.2)
  else (el2, false)

end Postpone

namespace Postpone

/-- Looking up one attribute ignores an in-place overwrite of a different
attribute. -/
theorem find?_attr_map (m v nm : String) (h : ¬ nm = m) :
    ∀ attrs : List (String × String),
      List.find? (fun q => q.1 = nm) (attrs.map (fun q => if q.1 = m then (m, v) else q)) =
        List.find? (fun q => q.1 = nm) attrs := by
  intro attrs
  have hmn : ¬ m = nm := fun hc => h hc.symm
  induction attrs with
  | nil => rfl
  | cons p rest ih =>
    by_cases hp : p.1 = m
    · have hpn : ¬ p.1 = nm := by rw [hp]; exact hmn
      simp only [List.map_cons, List.find?_cons, hp, if_true, hmn, hpn, decide_False, ih]
    · by_cases hq : p.1 = nm
      · simp only [List.map_cons, List.find?_cons]
        rw [if_neg hp]
        simp only [hq, decide_True]
      · simp only [List.map_cons, List.find?_cons]
        rw [if_neg hp]
        simp only [hq, decide_False, ih]

/-- Looking up one attribute ignores an appended different attribute. -/
theorem find?_attr_append (m v nm : String) (h : ¬ nm = m) :
    ∀ attrs : List (String × String),
      List.find? (fun q => q.1 = nm) (attrs ++ [(m, v)]) =
        List.find? (fun q => q.1 = nm) attrs := by
  intro attrs
  have hmn : ¬ m = nm := fun hc => h hc.symm
  induction attrs with
  | nil => simp only [List.nil_append, List.find?_cons, hmn, decide_False, List.find?_nil]
  | cons p rest ih =>
    by_cases hq : p.1 = nm
    · simp only [List.cons_append, List.find?_cons, hq, decide_True]
    · simp only [List.cons_append, List.find?_cons, hq, decide_False, ih]

/-- `setAttribute` of one name leaves lookups of a different name alone. -/
theorem getAttribute_set_ne (attrs : List (String × String)) (m v nm : String) (h : ¬ nm = m) :
    getAttribute (setAttribute attrs m v) nm = getAttribute attrs nm := by
  unfold getAttribute setAttribute
  split
  · rw [find?_attr_map m v nm h attrs]
  · rw [find?_attr_append m v nm h attrs]

/-- After `removeAttribute`, the removed attribute reads as absent. -/
theorem getAttribute_remove_self (attrs : List (String × String)) (nm : String) :
    getAttribute (removeAttribute attrs nm) nm = none := by
  unfold getAttribute removeAttribute
  induction attrs with
  | nil => rfl
  | cons p rest ih =>
    by_cases hp : p.1 = nm
    · simpa only [List.filter_cons, hp, decide_True, Bool.not_true, if_false] using ih
    · simpa only [List.filter_cons, hp, decide_False, Bool.not_false, if_true, List.find?_cons] using ih

end Postpone

/-- C10: whatever the element's tag and whichever deferred attributes are
present — including the cases where the later child-copy loop throws — the
element returned by `load` no longer carries the `postpone` marker: the
removal is the first statement of `load`, before any copy. -/
theorem c10_marker_removed_first (el : LElem) :
    getAttribute (load el).1.attrs "postpone" = none := by
  unfold load
  dsimp only
  have hsrc : ∀ (a : List (String × String)) (v : String),
      getAttribute (setAttribute a "src" v) "postpone" = getAttribute a "postpone" :=
    fun a v => getAttribute_set_ne a "src" v "postpone" (by decide)
  have hx : ∀ (a : List (String × String)) (v : String),
      getAttribute (setAttribute a "xlink:href" v) "postpone" = getAttribute a "postpone" :=
    fun a v => getAttribute_set_ne a "xlink:href" v "postpone" (by decide)
  repeat' split
  all_goals
    simp only [hsrc, hx, getAttribute_remove_self]

/-- Witness for C10: the theorem applied at a concrete deferred image. -/
theorem c10_marker_removed_first_witness :
    getAttribute (load (LElem.mk "img" [("postpone", "true"), ("data-src", "y.jpg")] [])).1.attrs
      "postpone" = none :=
  c10_marker_removed_first (LElem.mk "img" [("postpone", "true"), ("data-src", "y.jpg")] [])

namespace Postpone

/-- C4 failing input: a `picture` whose two `source` children each carry
`data-src` and `data-srcset`. -/
def pic4 : LElem :=
  { tag := "picture", attrs := [("postpone", "true")]
  , children :=
      [ { tag := "source", attrs := [("data-src", "a.jpg"), ("data-srcset", "a.jpg 1x")] }
      , { tag := "source", attrs := [("data-src", "b.jpg"), ("data-srcset", "b.jpg 2x")] } ] }

/-- The element state `load` leaves behind on `pic4`: marker removed, every
child's deferred attributes copied. -/
def pic4After : LElem :=
  { tag := "picture", attrs := []
  , children :=
      [ { tag := "source"
        , attrs := [("data-src", "a.jpg"), ("data-srcset", "a.jpg 1x"),
                    ("src", "a.jpg"), ("srcset", "a.jpg 1x")] }
      , { tag := "source"
        , attrs := [("data-src", "b.jpg"), ("data-srcset", "b.jpg 2x"),
                    ("src", "b.jpg"), ("srcset", "b.jpg 2x")] } ] }

/-- C4 failing input, `audio`/`video` side: a `video` with `data-src` and one
`source` child carrying `data-src`. -/
def vid4 : LElem :=
  { tag := "video", attrs := [("postpone", "true"), ("data-src", "v.mp4")]
  , children := [ { tag := "source", attrs := [("data-src", "v.webm")] } ] }

/-- The element state `load` leaves behind on `vid4`. -/
def vid4After : LElem :=
  { tag := "video", attrs := [("data-src", "v.mp4"), ("src", "v.mp4")]
  , children := [ { tag := "source", attrs := [("data-src", "v.webm"), ("src", "v.webm")] } ] }

end Postpone

/-- C4: on a `picture` with two `source` children carrying `data-src` and
`data-srcset`, `load` does copy each child's deferred attributes and remove
the marker — but it does not complete without error: the child loop bound
`i <= el.children.length` reads `children[length]` (JS `undefined`) and
`child.tagName` throws a `TypeError` (the `true` flag), so the element is
never returned. The same happens on a `video` with `source` children. -/
theorem c4_picture_activation_throws :
    load pic4 = (pic4After, true) ∧ load vid4 = (vid4After, true) := by
  constructor <;>
    simp [load, picLoop, avLoop, picChildStep, avChildStep, pic4, pic4After, vid4, vid4After,
      setAttribute, getAttribute, jsTruthy, jsContains, jsLower, subHit, leadMatch,
      removeAttribute, List.find?, List.set, List.get]

namespace Postpone

/-- C5 failing input: a `picture` with a single deferred `source` child. -/
def pic5 : LElem :=
  { tag := "picture", attrs := [("postpone", "true")]
  , children := [ { tag := "source", attrs := [("data-src", "c.jpg"), ("data-srcset", "c.jpg 1x")] } ] }

/-- The element state `load` leaves behind on `pic5`. -/
def pic5After : LElem :=
  { tag := "picture", attrs := []
  , children :=
      [ { tag := "source"
        , attrs := [("data-src", "c.jpg"), ("data-srcset", "c.jpg 1x"),
                    ("src", "c.jpg"), ("srcset", "c.jpg 1x")] } ] }

end Postpone

/-- C5: calling `load` twice on `pic5` does yield the same final attribute
state as calling it once (the deferred attributes are still present, so the
re-copy writes identical values) — but the second call does not run
error-free: it throws the same child-loop `TypeError` as the first, so the
"neither re-copies differently nor errors" half of the claim fails. -/
theorem c5_second_activation_errors :
    load pic5 = (pic5After, true) ∧ load pic5After = (pic5After, true) := by
  constructor <;>
    simp [load, picLoop, avLoop, picChildStep, avChildStep, pic5, pic5After,
      setAttribute, getAttribute, jsTruthy, jsContains, jsLower, subHit, leadMatch,
      removeAttribute, List.find?, List.set, List.get]

namespace Postpone

/-- The `element` field a `scrollElements` entry keeps: either the literal
string `"window"` or a reference to a scroll-container node (by its index in
the document's container table). -/
inductive SRef where
  | window
  | node (k : Nat)
deriving DecidableEq, Repr

/-- One entry of `this.scrollElements`: in the source it is an array of
postponed elements that additionally carries an `element` property (the
scroll container) and, once `postpone` has bound it, a `callback` property
(the bound handler, identified here by the number the binding counter gave
it — each `this.scrollHandler.bind(this)` call yields a fresh function). -/
structure Group where
  elems : List Elem
  element : SRef
  callback : Option Nat
deriving DecidableEq, Repr

/-- `this.scrollElements`: a JS object keyed by container id. Modelled as an
association list in insertion order; the claims proved below do not depend
on JS property-enumeration order. -/
abbrev GroupMap := List (String × Group)

/-- `this.scrollElements[id]`: `none` is JS `undefined`. -/
def findG (m : GroupMap) (id : String) : Option Group :=
  (m.find? (fun p => p.1 = id)).map (·.2)

/-- The body of the `getScrollElements` loop that files one element under an
id: push onto the existing entry, or create the entry and set its `element`
property to the resolved scroll container. -/
def addToMap (m : GroupMap) (id : String) (e : Elem) (tgt : SRef) : GroupMap :=
  match findG m id with
  | some _ => m.map (fun p => if p.1 = id then (p.1, { p.2 with elems := p.2.elems ++ [e] }) else p)
  | none => m ++ [(id, { elems := [e], element := tgt, callback := none })]

/-- The loop of `Postpone.prototype.getScrollElements`, iterating over
`this.elements` with the accumulator `(m, ids, t)`: the map built so far,
the `data-id` attributes currently on the container nodes, and the clock
position. For an element with a truthy `data-scroll-element` selector the
container is resolved with `querySelector`; a `none` result is JS `null`,
so the following `scrollElement.getAttribute("data-id")` throws a
`TypeError` (`Except.error`), abandoning the whole pass. A container with a
falsy `data-id` gets `new Date().getTime()` as its id, persisted with
`setAttribute` (`ids.set`). Elements without selector go under `"window"`. -/
def gseAux (doc : Doc) (clock : Nat → Nat) :
    List Elem → GroupMap → List (Option String) → Nat →
      Except Unit (GroupMap × List (Option String) × Nat)
  | [], m, ids, t => .ok (m, ids, t)
  | e :: rest, m, ids, t =>
    if jsTruthy (getAttribute e.attrs "data-scroll-element") then
      match querySelector doc ((getAttribute e.attrs "data-scroll-element").getD "") with
      | none => .error ()
      | some k =>
        let cur := ids.getD k none
        if jsTruthy cur then
          gseAux doc clock rest (addToMap m (cur.getD "") e (.node k)) ids t
        else
          gseAux doc clock rest (addToMap m (Nat.repr (clock t)) e (.node k))
            (ids.set k (some (Nat.repr (clock t)))) (t + 1)
    else
      gseAux doc clock rest (addToMap m "window" e .window) ids t

/-- `Postpone.prototype.getScrollElements`: reset `this.scrollElements` to
`{}` and run the loop over the current `this.elements`. -/
def getScrollElements (doc : Doc) (clock : Nat → Nat) (elements : List Elem)
    (ids : List (Option String)) (t : Nat) :
    Except Unit (GroupMap × List (Option String) × Nat) :=
  gseAux doc clock elements [] ids t

/-- The `srcElement` of a scroll event: the document itself (scrolls of the
window land on `window.document`) or a container node carrying the shown
`data-id` attribute value. -/
inductive EventSrc where
  | document
  | node (dataId : Option String)
deriving DecidableEq, Repr

/-- `Postpone.prototype.scrollHandler`: map the event source to a key
(`window.document` to `"window"`, otherwise the container's `data-id`; a JS
`null` id is coerced to the property key `"null"`), look the key up in
`this.scrollElements`, and walk the group's elements, loading the visible
ones. A key with no entry yields JS `undefined`, so the loop header
`elements.length` throws a `TypeError` (`Except.error`). The per-element
test `this.isVisible(element, scrollElement)` is abstracted by the `isVis`
parameter (the container argument is fixed for the whole walk); the result
lists the elements handed to `load`. -/
def scrollHandler (scrollElements : GroupMap) (isVis : Elem → Bool) (src : EventSrc) :
    Except Unit (List Elem) :=
  let key : String :=
    match src with
    | .document => "window"
    | .node d => d.getD "null"
  match findG scrollElements key with
  | none => .error ()
  | some g => .ok (g.elems.filter isVis)

/-- `Postpone.prototype.stringifyElements`: concatenate `outerHTML` over the
given elements. -/
def stringifyElements (elements : List Elem) : String :=
  elements.foldl (fun acc e => acc ++ e.outerHTML) ""

/-- One tick of `Postpone.prototype.watch` (without the self-rescheduling
timeout): refresh `this.elements`, stringify, and run `this.postpone()` only
under `elementsString && elementsString !== newElementsString` — the first
component records whether the rebuild ran, the second is the string the
timeout closure passes to the next tick. -/
def watchStep (doc : Doc) (elementsString : Option String) : Bool × String :=
  let newElementsString := stringifyElements (getElements doc)
  (match elementsString with
   | none => false
   | some s => !(s = "") && !(s = newElementsString)
   , newElementsString)

end Postpone

namespace Postpone

/-- An element whose explicit scroll container is the node `"#a"` resolves
to. -/
def e9a : Elem :=
  { tag := "img", attrs := [("postpone", "true"), ("data-scroll-element", "#a")]
  , outerHTML := "<img a>" }

/-- An element whose explicit scroll container is the node `"#b"` resolves
to. -/
def e9b : Elem :=
  { tag := "img", attrs := [("postpone", "true"), ("data-scroll-element", "#b")]
  , outerHTML := "<img b>" }

/-- C9 failing input: two tracked elements pointing at two distinct
containers (indices 0 and 1), neither of which has a `data-id` yet. -/
def doc9 : Doc := { nodes := [e9a, e9b], sel := [("#a", 0), ("#b", 1)] }

end Postpone

/-- C9: container ids come from `new Date().getTime()`, so two distinct
containers assigned within the same millisecond (a constant clock) both
receive the id `"42"`, and their elements are merged into one group — the
group keeps container 0's node, so `e9b` will be evaluated against the wrong
container. The id is persisted on both nodes (`[some "42", some "42"]`),
making the collision permanent. -/
theorem c9_timestamp_ids_collide :
    getScrollElements doc9 (fun _ => 42) [e9a, e9b] [none, none] 0 =
      .ok ([("42", { elems := [e9a, e9b], element := .node 0, callback := none })],
        [some "42", some "42"], 2) := by
  rfl

namespace Postpone

/-- C2 failing input: a tracked element whose `data-scroll-element` selector
`".gone"` matches no node in the document. -/
def e2bad : Elem :=
  { tag := "img", attrs := [("postpone", "true"), ("data-scroll-element", ".gone")]
  , outerHTML := "<img bad>" }

/-- A perfectly well-formed viewport-relative tracked element. -/
def e2ok : Elem := { tag := "img", attrs := [("postpone", "true")], outerHTML := "<img ok>" }

/-- Document for C2: the malformed element first, the good one after it; no
selector resolves. -/
def doc2 : Doc := { nodes := [e2bad, e2ok], sel := [] }

end Postpone

/-- C2: when the selector resolves to no node, `document.querySelector`
returns `null` and the immediate `scrollElement.getAttribute("data-id")`
throws a `TypeError`, aborting the whole grouping pass — the healthy element
`e2ok` is not grouped either (first conjunct). Dropping the malformed
element, the same pass succeeds and files `e2ok` under the viewport group
(second conjunct), showing it is exactly the one malformed element that
kills tracking for all others. -/
theorem c2_missing_selector_throws :
    getScrollElements doc2 (fun _ => 0) [e2bad, e2ok] [] 0 = .error () ∧
    getScrollElements doc2 (fun _ => 0) [e2ok] [] 0 =
      .ok ([("window", { elems := [e2ok], element := .window, callback := none })], [], 0) := by
  exact ⟨rfl, rfl⟩

/-- C1: a scroll event whose source container carries a `data-id` with no
entry in `this.scrollElements` (here `"7"`, while only the `"window"` group
is registered) makes `scrollHandler` read `undefined` from the group map and
throw a `TypeError` at `elements.length` — the event is not silently
ignored. -/
theorem c1_unregistered_container_throws :
    scrollHandler [("window", { elems := [e2ok], element := .window, callback := none })]
      (fun _ => true) (.node (some "7")) = .error () := by
  rfl

namespace Postpone

/-- Document for C3: one freshly added postponed image; at the previous tick
the candidate set was empty, so the captured snapshot was `""`. -/
def doc3 : Doc :=
  { nodes := [{ tag := "img", attrs := [("postpone", "true")], outerHTML := "<img postpone>" }]
  , sel := [] }

end Postpone

/-- C3: the snapshots differ (`"" ≠ "<img postpone>"`), yet the tick does
not trigger a rebuild: the guard `elementsString && elementsString !==
newElementsString` treats the empty-string snapshot of an empty previous
candidate set as falsy and skips `this.postpone()` (first component
`false`). The third conjunct shows the same tick with a non-empty differing
snapshot does rebuild, isolating the empty-snapshot case as the failure. -/
theorem c3_empty_snapshot_skips_rebuild :
    watchStep doc3 (some "") = (false, "<img postpone>") ∧
    ("" : String) ≠ "<img postpone>" ∧
    watchStep doc3 (some "<img old>") = (true, "<img postpone>") := by
  exact ⟨rfl, by decide, rfl⟩

namespace Postpone

/-- The scroll surface `postpone` binds to / unbinds from for a map entry:
the key `"window"` goes to the global `window`, every other key goes to the
entry's `element` node. If that `element` were the literal string
`"window"` under a non-`"window"` key, `element.addEventListener` would
itself throw — `getScrollElements` never builds such an entry, but the model
keeps the error case for faithfulness. -/
def bindTarget (id : String) (g : Group) : Except Unit SRef :=
  if id = "window" then .ok .window
  else
    match g.element with
    | .node k => .ok (.node k)
    | .window => .error ()

/-- `removeEventListener(scroll, cb)`: drop the first matching registration;
removing a listener that is not registered is a no-op. -/
def eraseFirst : List (SRef × Nat) → (SRef × Nat) → List (SRef × Nat)
  | [], _ => []
  | x :: xs, y => if x = y then xs else x :: eraseFirst xs y

/-- The removal loop at the top of `Postpone.prototype.postpone`: for every
entry of `this.scrollElements`, remove its `callback` from its scroll
surface. An entry whose `callback` property is still unset passes
`undefined` to `removeEventListener`, which is a no-op. -/
def unbindAux : GroupMap → List (SRef × Nat) → Except Unit (List (SRef × Nat))
  | [], ls => .ok ls
  | (id, g) :: rest, ls =>
    match bindTarget id g with
    | .error u => .error u
    | .ok tgt =>
      match g.callback with
      | none => unbindAux rest ls
      | some c => unbindAux rest (eraseFirst ls (tgt, c))

/-- The binding loop of `Postpone.prototype.postpone`: for every entry of
the freshly rebuilt `this.scrollElements`, create a fresh handler
(`this.scrollHandler.bind(this)`, numbered by the counter `n`), store it in
the entry's `callback` property, and add it to the entry's scroll surface.
Returns the updated map, the advanced counter, and the added registrations
in loop order. -/
def bindAux : GroupMap → Nat → Except Unit (GroupMap × Nat × List (SRef × Nat))
  | [], n => .ok ([], n, [])
  | (id, g) :: rest, n =>
    match bindTarget id g with
    | .error u => .error u
    | .ok tgt =>
      match bindAux rest (n + 1) with
      | .error u => .error u
      | .ok (rest2, n2, ls) => .ok ((id, { g with callback := some n }) :: rest2, n2, (tgt, n) :: ls)

/-- Number of scroll listeners currently bound on one scroll surface. -/
def countT (tgt : SRef) (ls : List (SRef × Nat)) : Nat :=
  ((ls.map Prod.fst).filter (fun x => x = tgt)).length

/-- The engine state a `Postpone` instance carries across calls:
`this.elements`, `this.scrollElements`, the `data-id` attributes on the
document's container nodes (mutated via `setAttribute`, hence engine-visible
state), the scroll listeners currently registered on the page, the fresh
identity counter for `this.scrollHandler.bind(this)` closures, and the
clock position. -/
structure EngineState where
  elements : List Elem
  scrollElements : GroupMap
  contIds : List (Option String)
  listeners : List (SRef × Nat)
  nextCb : Nat
  time : Nat
deriving DecidableEq, Repr

/-- `Postpone.prototype.postpone`: remove every previously bound listener;
then, if `this.elements` (as left by the previous scan) is non-empty, re-run
`getElements` and `getScrollElements` and bind a fresh listener per group. -/
def postpone (doc : Doc) (clock : Nat → Nat) (st : EngineState) : Except Unit EngineState :=
  match unbindAux st.scrollElements st.listeners with
  | .error u => .error u
  | .ok ls1 =>
    if st.elements.length = 0 then
      .ok { st with listeners := ls1 }
    else
      match getScrollElements doc clock (getElements doc) st.contIds st.time with
      | .error u => .error u
      | .ok (m, ids, t) =>
        match bindAux m st.nextCb with
        | .error u => .error u
        | .ok (m2, n2, newLs) =>
          .ok { elements := getElements doc, scrollElements := m2, contIds := ids
              , listeners := ls1 ++ newLs, nextCb := n2, time := t }

/-- The engine state right before the first `postpone()` call inside
`init`: `getElements` has run once, no groups are bound yet, no listeners
are registered, and the containers carry whatever `data-id` attributes
(`ids0`) the page author gave them. -/
def initState (doc : Doc) (ids0 : List (Option String)) (n0 t0 : Nat) : EngineState :=
  { elements := getElements doc, scrollElements := [], contIds := ids0
  , listeners := [], nextCb := n0, time := t0 }

end Postpone

namespace Postpone

/-- `Nat.toDigitsCore` never shrinks its accumulator. -/
theorem toDigitsCore_len_le (b : Nat) :
    ∀ (f n : Nat) (ds : List Char), ds.length ≤ (Nat.toDigitsCore b f n ds).length := by
  intro f
  induction f with
  | zero => intro n ds; simp [Nat.toDigitsCore]
  | succ f ih =>
    intro n ds
    by_cases hz : n / b = 0
    · simp [Nat.toDigitsCore, hz]
    · simp only [Nat.toDigitsCore, hz, if_false]
      exact le_trans (by simp) (ih (n / b) (Nat.digitChar (n % b) :: ds))

/-- With fuel left, `Nat.toDigitsCore` grows its accumulator. -/
theorem toDigitsCore_len_lt (b n : Nat) (f : Nat) (ds : List Char) :
    ds.length < (Nat.toDigitsCore b (f + 1) n ds).length := by
  by_cases hz : n / b = 0
  · simp [Nat.toDigitsCore, hz]
  · simp only [Nat.toDigitsCore, hz, if_false]
    exact lt_of_lt_of_le (by simp) (toDigitsCore_len_le b f (n / b) (Nat.digitChar (n % b) :: ds))

/-- The decimal string a container id is coerced to is never empty, hence
always truthy. -/
theorem nat_repr_ne_empty (n : Nat) : ¬ Nat.repr n = "" := by
  intro h
  have hd : Nat.toDigits 10 n = [] := congrArg String.data h
  have := toDigitsCore_len_lt 10 n n []
  rw [show Nat.toDigitsCore 10 (n + 1) n [] = Nat.toDigits 10 n from rfl, hd] at this
  simp at this

/-- `jsTruthy` of a freshly assigned container id. -/
theorem jsTruthy_repr (n : Nat) : jsTruthy (some (Nat.repr n)) = true := by
  simp [jsTruthy, nat_repr_ne_empty n]

/-- `List.getD` at an index other than the one just set. -/
theorem getD_set_ne {α : Type} (l : List α) (i j : Nat) (a d : α) (h : ¬ i = j) :
    (l.set i a).getD j d = l.getD j d := by
  rw [List.getD_eq_getElem?_getD, List.getD_eq_getElem?_getD, List.getElem?_set_ne h]

/-- `List.getD` at the index just set (when in range). -/
theorem getD_set_self {α : Type} (l : List α) (i : Nat) (a d : α) (h : i < l.length) :
    (l.set i a).getD i d = a := by
  rw [List.getD_eq_getElem?_getD, List.getElem?_set_self h]
  rfl

end Postpone

namespace Postpone

/-- One grouping pass never changes how many container slots the document
has (it only rewrites `data-id` attributes in place). -/
theorem gse_length (doc : Doc) (clock : Nat → Nat) :
    ∀ (es : List Elem) (m : GroupMap) (ids : List (Option String)) (t : Nat)
      (m1 : GroupMap) (ids1 : List (Option String)) (t1 : Nat),
      gseAux doc clock es m ids t = .ok (m1, ids1, t1) → ids1.length = ids.length := by
  intro es
  induction es with
  | nil =>
    intro m ids t m1 ids1 t1 h
    simp only [gseAux, Except.ok.injEq, Prod.mk.injEq] at h
    rw [← h.2.1]
  | cons e rest ih =>
    intro m ids t m1 ids1 t1 h
    cases hsel : jsTruthy (getAttribute e.attrs "data-scroll-element") with
    | false =>
      simp only [gseAux, hsel] at h
      exact ih _ _ _ _ _ _ h
    | true =>
      simp only [gseAux, hsel] at h
      cases hq : querySelector doc ((getAttribute e.attrs "data-scroll-element").getD "") with
      | none => rw [hq] at h; simp at h
      | some k =>
        simp only [hq] at h
        cases htr : jsTruthy (ids.getD k none) with
        | true =>
          simp only [htr, if_true] at h
          exact ih _ _ _ _ _ _ h
        | false =>
          simp only [htr, if_false] at h
          rw [ih _ _ _ _ _ _ h, List.length_set]

end Postpone

namespace Postpone

/-- A container whose `data-id` is already truthy keeps it through a
grouping pass: ids are only ever assigned to containers whose id is falsy. -/
theorem gse_persist (doc : Doc) (clock : Nat → Nat) :
    ∀ (es : List Elem) (m : GroupMap) (ids : List (Option String)) (t : Nat)
      (m1 : GroupMap) (ids1 : List (Option String)) (t1 : Nat),
      gseAux doc clock es m ids t = .ok (m1, ids1, t1) →
      ∀ j, jsTruthy (ids.getD j none) = true → ids1.getD j none = ids.getD j none := by
  intro es
  induction es with
  | nil =>
    intro m ids t m1 ids1 t1 h j _
    simp only [gseAux, Except.ok.injEq, Prod.mk.injEq] at h
    rw [← h.2.1]
  | cons e rest ih =>
    intro m ids t m1 ids1 t1 h j hj
    cases hsel : jsTruthy (getAttribute e.attrs "data-scroll-element") with
    | false =>
      simp only [gseAux, hsel] at h
      exact ih _ _ _ _ _ _ h j hj
    | true =>
      simp only [gseAux, hsel] at h
      cases hq : querySelector doc ((getAttribute e.attrs "data-scroll-element").getD "") with
      | none => rw [hq] at h; simp at h
      | some k =>
        simp only [hq] at h
        cases htr : jsTruthy (ids.getD k none) with
        | true =>
          simp only [htr, if_true] at h
          exact ih _ _ _ _ _ _ h j hj
        | false =>
          simp only [htr, if_false] at h
          have hkj : ¬ k = j := by
            intro hc
            rw [hc] at htr
            rw [hj] at htr
            cases htr
          have hstep : (ids.set k (some (Nat.repr (clock t)))).getD j none = ids.getD j none :=
            getD_set_ne ids k j _ none hkj
          have := ih _ _ _ _ _ _ h j (by rw [hstep]; exact hj)
          rw [this, hstep]

end Postpone

namespace Postpone

/-- A resolved container index respects the in-range condition on the
document's selector table. -/
theorem querySelector_lt (doc : Doc) (s : String) (k L : Nat)
    (hw : ∀ p ∈ doc.sel, p.2 < L) (hq : querySelector doc s = some k) : k < L := by
  unfold querySelector at hq
  cases hf : doc.sel.find? (fun p => p.1 = s) with
  | none => rw [hf] at hq; cases hq
  | some p0 =>
    rw [hf] at hq
    simp at hq
    rw [← hq]
    exact hw p0 (List.mem_of_find?_eq_some hf)

/-- Re-running a grouping pass on the same element list, starting from the
`data-id` attributes and clock position the first pass left behind, assigns
nothing new and rebuilds exactly the same group map: every container either
already had a truthy id (kept, by `gse_persist`) or got one during the first
pass (a nonempty decimal string, persisted by `setAttribute`). Needs every
selector-table index in range of the id table, since `setAttribute` on a
real node always persists. -/
theorem gse_stable (doc : Doc) (clock : Nat → Nat) :
    ∀ (es : List Elem) (m : GroupMap) (ids : List (Option String)) (t : Nat)
      (m1 : GroupMap) (ids1 : List (Option String)) (t1 : Nat),
      (∀ p ∈ doc.sel, p.2 < ids.length) →
      gseAux doc clock es m ids t = .ok (m1, ids1, t1) →
      gseAux doc clock es m ids1 t1 = .ok (m1, ids1, t1) := by
  intro es
  induction es with
  | nil =>
    intro m ids t m1 ids1 t1 _ h
    simp only [gseAux, Except.ok.injEq, Prod.mk.injEq] at h
    obtain ⟨h1, h2, h3⟩ := h
    subst h1
    subst h2
    subst h3
    rfl
  | cons e rest ih =>
    intro m ids t m1 ids1 t1 hw h
    cases hsel : jsTruthy (getAttribute e.attrs "data-scroll-element") with
    | false =>
      simp only [gseAux, hsel] at h ⊢
      exact ih _ _ _ _ _ _ hw h
    | true =>
      simp only [gseAux, hsel] at h ⊢
      cases hq : querySelector doc ((getAttribute e.attrs "data-scroll-element").getD "") with
      | none => simp only [hq] at h; simp at h
      | some k =>
        simp only [hq] at h ⊢
        cases htr : jsTruthy (ids.getD k none) with
        | true =>
          simp only [htr, if_true] at h
          have hpers := gse_persist doc clock rest _ ids _ _ ids1 _ h k htr
          rw [hpers]
          simp only [htr, if_true]
          exact ih _ _ _ _ _ _ hw h
        | false =>
          simp only [htr, if_false] at h
          have hklt : k < ids.length := querySelector_lt doc _ k ids.length hw hq
          have hset : (ids.set k (some (Nat.repr (clock t)))).getD k none
              = some (Nat.repr (clock t)) :=
            getD_set_self ids k _ none hklt
          have hpers := gse_persist doc clock rest _ _ _ _ ids1 _ h k
            (by rw [hset]; exact jsTruthy_repr _)
          rw [hpers, hset]
          simp only [jsTruthy_repr, if_true, Option.getD_some]
          have hw2 : ∀ p ∈ doc.sel, p.2 < (ids.set k (some (Nat.repr (clock t)))).length := by
            intro p hp
            rw [List.length_set]
            exact hw p hp
          exact ih _ _ _ _ _ _ hw2 h

end Postpone

namespace Postpone

/-- The binding target only depends on the key and the stored container,
not on the `callback` slot the binding loop fills in. -/
theorem bindTarget_callback (id : String) (g : Group) (c : Option Nat) :
    bindTarget id { g with callback := c } = bindTarget id g := rfl

/-- Unbinding directly after a successful bind removes exactly the
registrations that bind added: walking the rebuilt map in the same order,
every entry's stored callback is found at the head of what is left of the
added registrations. -/
theorem bind_unbind : ∀ (m : GroupMap) (n : Nat) (m2 : GroupMap) (n2 : Nat)
    (ls : List (SRef × Nat)),
    bindAux m n = .ok (m2, n2, ls) → unbindAux m2 ls = .ok [] := by
  intro m
  induction m with
  | nil =>
    intro n m2 n2 ls h
    simp only [bindAux, Except.ok.injEq, Prod.mk.injEq] at h
    rw [← h.1, ← h.2.2]
    rfl
  | cons p rest ih =>
    intro n m2 n2 ls h
    obtain ⟨id, g⟩ := p
    cases ht : bindTarget id g with
    | error u =>
      simp only [bindAux, ht] at h
      exact Except.noConfusion h
    | ok tgt =>
      simp only [bindAux, ht] at h
      cases hb : bindAux rest (n + 1) with
      | error u => rw [hb] at h; simp at h
      | ok trip =>
        obtain ⟨rest2, nn, ll⟩ := trip
        simp only [hb, Except.ok.injEq, Prod.mk.injEq] at h
        obtain ⟨hm, hn, hl⟩ := h
        rw [← hm, ← hl]
        simp only [unbindAux, bindTarget_callback, ht]
        simp only [eraseFirst, if_pos rfl]
        exact ih (n + 1) rest2 nn ll hb

/-- A successful bind at one counter value succeeds at any other, adding
registrations on the same scroll surfaces in the same order (only the fresh
handler identities differ). -/
theorem bindAux_ok_iso : ∀ (m : GroupMap) (n n' : Nat) (m2 : GroupMap) (n2 : Nat)
    (ls : List (SRef × Nat)),
    bindAux m n = .ok (m2, n2, ls) →
    ∃ m2' n2' ls', bindAux m n' = .ok (m2', n2', ls') ∧
      ls'.map Prod.fst = ls.map Prod.fst := by
  intro m
  induction m with
  | nil =>
    intro n n' m2 n2 ls h
    simp only [bindAux, Except.ok.injEq, Prod.mk.injEq] at h
    exact ⟨[], n', [], rfl, by rw [← h.2.2]⟩
  | cons p rest ih =>
    intro n n' m2 n2 ls h
    obtain ⟨id, g⟩ := p
    cases ht : bindTarget id g with
    | error u =>
      simp only [bindAux, ht] at h
      exact Except.noConfusion h
    | ok tgt =>
      simp only [bindAux, ht] at h
      cases hb : bindAux rest (n + 1) with
      | error u => rw [hb] at h; simp at h
      | ok trip =>
        obtain ⟨rest2, nn, ll⟩ := trip
        simp only [hb, Except.ok.injEq, Prod.mk.injEq] at h
        obtain ⟨hm, hn, hl⟩ := h
        obtain ⟨m2', n2', ls', hb', hfst⟩ := ih (n + 1) (n' + 1) rest2 nn ll hb
        refine ⟨(id, { g with callback := some n' }) :: m2', n2', (tgt, n') :: ls', ?_, ?_⟩
        · simp only [bindAux, ht, hb']
        · rw [← hl]
          simp only [List.map_cons, hfst]

/-- Listener counts only depend on which scroll surface each registration
is on. -/
theorem countT_congr (tgt : SRef) (ls ls' : List (SRef × Nat))
    (h : ls.map Prod.fst = ls'.map Prod.fst) : countT tgt ls = countT tgt ls' := by
  unfold countT
  rw [h]

end Postpone

/-- C6: starting from the engine's initial state (one discovery pass done,
nothing bound yet), running the full scan-group-bind cycle (`postpone`)
twice in a row on an unchanged document leaves the number of bound scroll
listeners on every scroll surface unchanged: the second rebind first removes
exactly the listeners the first one registered, then binds one fresh
listener per group of the identical rebuilt group map. The hypothesis keeps
every selector-table entry inside the container-id table, since
`setAttribute` on a real node always persists its value. -/
theorem c6_rebind_no_duplicate_listeners (doc : Doc) (clock : Nat → Nat)
    (ids0 : List (Option String)) (n0 t0 : Nat) (st1 st2 : EngineState)
    (hw : ∀ p ∈ doc.sel, p.2 < ids0.length)
    (h1 : postpone doc clock (initState doc ids0 n0 t0) = .ok st1)
    (h2 : postpone doc clock st1 = .ok st2)
    (tgt : SRef) :
    countT tgt st2.listeners = countT tgt st1.listeners := by
  unfold postpone initState at h1
  simp only [unbindAux] at h1
  by_cases hz : (getElements doc).length = 0
  · simp only [hz, if_pos rfl] at h1
    injection h1 with h1'
    subst h1'
    unfold postpone at h2
    simp only [unbindAux, hz, if_pos rfl] at h2
    injection h2 with h2'
    subst h2'
    rfl
  · rw [if_neg hz] at h1
    cases hg : getScrollElements doc clock (getElements doc) ids0 t0 with
    | error u =>
      simp only [hg] at h1
      exact Except.noConfusion h1
    | ok trip =>
      obtain ⟨m1, ids1, t1⟩ := trip
      simp only [hg] at h1
      cases hb : bindAux m1 n0 with
      | error u =>
        simp only [hb] at h1
        exact Except.noConfusion h1
      | ok trip2 =>
        obtain ⟨m1b, n1, new1⟩ := trip2
        simp only [hb] at h1
        injection h1 with h1'
        subst h1'
        unfold postpone at h2
        simp only [List.nil_append] at h2
        rw [bind_unbind m1 n0 m1b n1 new1 hb] at h2
        simp only [hz, if_neg hz] at h2
        have hlen : ids1.length = ids0.length :=
          gse_length doc clock (getElements doc) [] ids0 t0 m1 ids1 t1 hg
        have hw1 : ∀ p ∈ doc.sel, p.2 < ids1.length := by
          intro p hp
          rw [hlen]
          exact hw p hp
        have hst : getScrollElements doc clock (getElements doc) ids1 t1 =
            .ok (m1, ids1, t1) :=
          gse_stable doc clock (getElements doc) [] ids0 t0 m1 ids1 t1 hw hg
        simp only [if_false, hst] at h2
        obtain ⟨m2b, n2b, new2, hb2, hfst⟩ :=
          bindAux_ok_iso m1 n0 n1 m1b n1 new1 hb
        simp only [hb2] at h2
        injection h2 with h2'
        subst h2'
        simp only [List.nil_append]
        exact countT_congr tgt new2 new1 hfst

namespace Postpone

/-- A viewport-relative tracked image for the C6 witness. -/
def imgWin6 : Elem := { tag := "img", attrs := [("postpone", "true")], outerHTML := "<img w>" }

/-- A container-relative tracked image for the C6 witness. -/
def imgSel6 : Elem :=
  { tag := "img", attrs := [("postpone", "true"), ("data-scroll-element", "#c")]
  , outerHTML := "<img c>" }

/-- C6 witness document: one viewport group, one container group. -/
def doc6 : Doc := { nodes := [imgWin6, imgSel6], sel := [("#c", 0)] }

/-- The engine state after the first full cycle on `doc6`. -/
def st1c : EngineState :=
  { elements := [imgWin6, imgSel6]
  , scrollElements :=
      [ ("window", { elems := [imgWin6], element := .window, callback := some 0 })
      , ("0", { elems := [imgSel6], element := .node 0, callback := some 1 }) ]
  , contIds := [some "0"]
  , listeners := [(.window, 0), (.node 0, 1)]
  , nextCb := 2, time := 1 }

/-- The engine state after the second full cycle on `doc6`: fresh handlers,
same one-listener-per-surface shape. -/
def st2c : EngineState :=
  { elements := [imgWin6, imgSel6]
  , scrollElements :=
      [ ("window", { elems := [imgWin6], element := .window, callback := some 2 })
      , ("0", { elems := [imgSel6], element := .node 0, callback := some 3 }) ]
  , contIds := [some "0"]
  , listeners := [(.window, 2), (.node 0, 3)]
  , nextCb := 4, time := 1 }

end Postpone

/-- Witness for C6 at `doc6`: both cycles run successfully (discharged by
evaluation) and the theorem gives the unchanged listener count on the global
window surface and on the container surface. -/
theorem c6_rebind_no_duplicate_listeners_witness :
    countT SRef.window st2c.listeners = countT SRef.window st1c.listeners ∧
    countT (SRef.node 0) st2c.listeners = countT (SRef.node 0) st1c.listeners :=
  ⟨c6_rebind_no_duplicate_listeners doc6 (fun t => t) [none] 0 0 st1c st2c
     (by decide) (by rfl) (by rfl) SRef.window,
   c6_rebind_no_duplicate_listeners doc6 (fun t => t) [none] 0 0 st1c st2c
     (by decide) (by rfl) (by rfl) (SRef.node 0)⟩
